import Mathlib

/-!
Verification development for the `task-manager-cli` program (`src/main.rs`),
a single-file Rust CLI that adds, lists, completes and removes text tasks
persisted in a JSON file (`tasks.json`).

Shallow embedding conventions:
* `Task` mirrors the Rust `struct Task { description: String, completed: bool }`.
* The storage file is modelled at the level of its parsed JSON value (`Json`);
  `none` stands for an absent or unreadable/unparsable file.  The spec itself
  fixes only the logical JSON content of the file as the contract, not the
  concrete pretty-printed text.
* Each operation of the program is a pure function returning the new task
  list, whether `save_tasks` was invoked, and the lines printed to standard
  output.  `runCmd` embeds the dispatcher in `main` (after clap argument
  parsing), including the `usize` parse of the id argument and the process
  exit code.  The decorative brace lines `main` prints around every run are
  the same for all commands and are not modelled.
-/

namespace TaskManager

/-- Mirror of the Rust struct `Task`: a free-text description plus a
completion flag. -/
structure Task where
  description : String
  completed : Bool
  deriving DecidableEq

/-- JSON values, the logical content of the storage file `tasks.json`. -/
inductive Json where
  | null : Json
  | bool (b : Bool) : Json
  | num (n : Int) : Json
  | str (s : String) : Json
  | arr (elts : List Json) : Json
  | obj (fields : List (String × Json)) : Json

/-- Serialization of one task, as produced by `serde_json` for the derived
`Serialize` on `Task`: an object with a `description` string field and a
`completed` boolean field. -/
def taskToJson (t : Task) : Json :=
  Json.obj [("description", Json.str t.description), ("completed", Json.bool t.completed)]

/-- First field of the given name in a JSON object, as serde reads fields. -/
def lookupField (name : String) : List (String × Json) → Option Json
  | [] => none
  | (k, v) :: rest => if k = name then some v else lookupField name rest

/-- Deserialization of one task, as the derived serde `Deserialize` on `Task`
accepts it: a JSON object whose `description` field is a string and whose
`completed` field is a boolean; anything else is an error (`none`). -/
def taskFromJson : Json → Option Task
  | Json.obj fields =>
    match lookupField "description" fields, lookupField "completed" fields with
    | some (Json.str d), some (Json.bool c) => some { description := d, completed := c }
    | _, _ => none
  | _ => none

/-- Deserialization of a list of tasks element by element; any element
failing makes the whole parse fail, as serde does for `Vec<Task>`. -/
def tasksFromJsonList : List Json → Option (List Task)
  | [] => some []
  | j :: js =>
    match taskFromJson j, tasksFromJsonList js with
    | some t, some ts => some (t :: ts)
    | _, _ => none

/-- Deserialization of the whole file content: a JSON array of task objects;
anything else is an error, as serde does for `Vec<Task>`. -/
def tasksFromJson : Json → Option (List Task)
  | Json.arr js => tasksFromJsonList js
  | _ => none

/-- Mirror of `load_tasks`: read `tasks.json`; on a missing/unreadable file or
a content that does not deserialize as `Vec<Task>`, fall back to the empty
vector.  The function is total: it never errors and prints nothing. -/
def load_tasks (file : Option Json) : List Task :=
  match file with
  | some j => (tasksFromJson j).getD []
  | none => []

/-- Mirror of `save_tasks`: the logical JSON content written to `tasks.json`
(`serde_json::to_string_pretty` of the task vector). -/
def save_tasks (tasks : List Task) : Json :=
  Json.arr (tasks.map taskToJson)

/-- Result of one Task Store operation: the task list afterwards, whether the
operation called `save_tasks`, and the lines it printed to standard output. -/
structure OpResult where
  tasks : List Task
  saved : Bool
  out : List String
  deriving DecidableEq

/-- Mirror of the filter closure in `list_tasks`: Rust `match filter.as_str()`
with arms `"pending"`, `"completed"` and a catch-all. -/
def filterPred (filter : String) (t : Task) : Bool :=
  if filter = "pending" then !t.completed
  else if filter = "completed" then t.completed
  else true

/-- Status word printed for a task, from the `if task.completed` in
`list_tasks`. -/
def statusStr (t : Task) : String :=
  if t.completed then "Completed" else "Pending"

/-- One output line of `list_tasks` for the task at zero-based index `idx`
of the filtered view: `println!("{}. {} ({})", index + 1, ...)`. -/
def renderLine (idx : Nat) (t : Task) : String :=
  toString (idx + 1) ++ ". " ++ t.description ++ " (" ++ statusStr t ++ ")"

/-- Mirror of `list_tasks`: default the filter to `""`, keep the tasks the
filter selects, then either print `No tasks found.` or one numbered line per
selected task.  Returns the printed lines; the task list is taken by shared
reference in the source and is never modified or saved. -/
def list_tasks (tasks : List Task) (filter : Option String) : List String :=
  let f := filter.getD ""
  let filtered := tasks.filter (filterPred f)
  if filtered.isEmpty then ["No tasks found."]
  else filtered.enum.map (fun p => renderLine p.1 p.2)

/-- Mirror of `add_task`: push a new task with the given description and
`completed = false`, save, and print the confirmation. -/
def add_task (tasks : List Task) (description : String) : OpResult :=
  { tasks := tasks ++ [{ description := description, completed := false }]
    saved := true
    out := ["Task \x27" ++ description ++ "\x27 added successfully!"] }

/-- In-place update `tasks[i].completed = true` on a list. -/
def setTaskCompleted : List Task → Nat → List Task
  | [], _ => []
  | t :: ts, 0 => { description := t.description, completed := true } :: ts
  | t :: ts, n + 1 => t :: setTaskCompleted ts n

/-- Mirror of `mark_task_as_completed`: if `id > 0 && id <= tasks.len()`,
set `tasks[id - 1].completed = true`, save and print the confirmation;
otherwise print `Invalid task ID.` and change nothing. -/
def mark_task_as_completed (tasks : List Task) (id : Nat) : OpResult :=
  if 0 < id ∧ id ≤ tasks.length then
    { tasks := setTaskCompleted tasks (id - 1)
      saved := true
      out := ["Task " ++ toString id ++ " marked as completed!"] }
  else
    { tasks := tasks, saved := false, out := ["Invalid task ID."] }

/-- Mirror of `remove_task`: if `id > 0 && id <= tasks.len()`, remove the
task at index `id - 1` (`Vec::remove`, shifting later elements left), save
and print a confirmation naming the removed description; otherwise print
`Invalid task ID.` and change nothing. -/
def remove_task (tasks : List Task) (id : Nat) : OpResult :=
  if 0 < id ∧ id ≤ tasks.length then
    { tasks := tasks.eraseIdx (id - 1)
      saved := true
      out := ["Task \x27" ++ ((tasks[id - 1]?).map Task.description).getD "" ++
              "\x27 removed successfully!"] }
  else
    { tasks := tasks, saved := false, out := ["Invalid task ID."] }

/-- Drop one leading `+` sign, as Rust unsigned `from_str` accepts. -/
def stripPlus : List Char → List Char
  | [] => []
  | c :: rest => if c = '+' then rest else c :: rest

/-- Numeric value of a string of decimal digits. -/
def digitsToNat (cs : List Char) : Nat :=
  cs.foldl (fun acc c => acc * 10 + (c.toNat - '0'.toNat)) 0

/-- Largest value of `usize` on the 64-bit target. -/
def USIZE_MAX : Nat := 2 ^ 64 - 1

/-- Mirror of `.parse::<usize>()` on the id argument: an optional leading
`+` followed by at least one ASCII decimal digit, value at most
`usize::MAX`; anything else (empty, any other sign or letter, overflow)
is a parse error. -/
def parseUsizeChars (cs : List Char) : Option Nat :=
  let body := stripPlus cs
  if body.isEmpty then none
  else if body.all Char.isDigit then
    if digitsToNat body ≤ USIZE_MAX then some (digitsToNat body) else none
  else none

/-- `.parse::<usize>()` on a string. -/
def parseUsize (s : String) : Option Nat := parseUsizeChars s.data

/-- One parsed command line, the four clap subcommands plus the
missing/unrecognized case. -/
inductive Cmd where
  | add (description : String) : Cmd
  | list (filter : Option String) : Cmd
  | complete (idArg : String) : Cmd
  | remove (idArg : String) : Cmd
  | invalid : Cmd

/-- Observable outcome of one whole invocation: final in-memory list,
whether a save was performed, standard output lines, standard error lines,
and the process exit code. -/
structure RunResult where
  tasks : List Task
  saved : Bool
  out : List String
  err : List String
  exitCode : Nat
  deriving DecidableEq

/-- Mirror of the dispatcher in `main` after clap parsing: load the tasks,
run one operation.  For `complete`/`remove` the id argument is parsed as
`usize`; on parse failure the process prints `Invalid ID.` to standard error
and exits 1 before touching the list.  An unrecognized or missing subcommand
prints `Invalid command.` to standard error and exits 1. -/
def runCmd (file : Option Json) (cmd : Cmd) : RunResult :=
  let tasks := load_tasks file
  match cmd with
  | Cmd.add d =>
    let r := add_task tasks d
    { tasks := r.tasks, saved := r.saved, out := r.out, err := [], exitCode := 0 }
  | Cmd.list f =>
    { tasks := tasks, saved := false, out := list_tasks tasks f, err := [], exitCode := 0 }
  | Cmd.complete idArg =>
    match parseUsize idArg with
    | some id =>
      let r := mark_task_as_completed tasks id
      { tasks := r.tasks, saved := r.saved, out := r.out, err := [], exitCode := 0 }
    | none =>
      { tasks := tasks, saved := false, out := [], err := ["Invalid ID."], exitCode := 1 }
  | Cmd.remove idArg =>
    match parseUsize idArg with
    | some id =>
      let r := remove_task tasks id
      { tasks := r.tasks, saved := r.saved, out := r.out, err := [], exitCode := 0 }
    | none =>
      { tasks := tasks, saved := false, out := [], err := ["Invalid ID."], exitCode := 1 }
  | Cmd.invalid =>
    { tasks := tasks, saved := false, out := [], err := ["Invalid command."], exitCode := 1 }

/-! ### Helper lemmas -/

theorem setTaskCompleted_length (ts : List Task) (i : Nat) :
    (setTaskCompleted ts i).length = ts.length := by
  induction ts generalizing i with
  | nil => rfl
  | cons a ts ih =>
    cases i with
    | zero => rfl
    | succ n => simp [setTaskCompleted, ih]

theorem setTaskCompleted_getElem?_ne (ts : List Task) (i j : Nat) (h : j ≠ i) :
    (setTaskCompleted ts i)[j]? = ts[j]? := by
  induction ts generalizing i j with
  | nil => rfl
  | cons a ts ih =>
    cases i with
    | zero =>
      cases j with
      | zero => omega
      | succ j => simp [setTaskCompleted]
    | succ n =>
      cases j with
      | zero => simp [setTaskCompleted]
      | succ j => simpa [setTaskCompleted] using ih n j (by omega)

theorem setTaskCompleted_getElem?_self (ts : List Task) (i : Nat) :
    (setTaskCompleted ts i)[i]? =
      (ts[i]?).map (fun t => { description := t.description, completed := true }) := by
  induction ts generalizing i with
  | nil => rfl
  | cons a ts ih =>
    cases i with
    | zero => simp [setTaskCompleted]
    | succ n => simpa [setTaskCompleted] using ih n

theorem setTaskCompleted_of_completed (ts : List Task) (i : Nat) (t : Task)
    (h : ts[i]? = some t) (hc : t.completed = true) : setTaskCompleted ts i = ts := by
  induction ts generalizing i with
  | nil => simp at h
  | cons a ts ih =>
    cases i with
    | zero =>
      simp only [List.getElem?_cons_zero, Option.some.injEq] at h
      rw [← h] at hc
      cases a with
      | mk d c =>
        simp only [setTaskCompleted]
        simp_all
    | succ n =>
      simp only [List.getElem?_cons_succ] at h
      simp [setTaskCompleted, ih n h]

theorem tasksFromJsonList_map_toJson (tasks : List Task) :
    tasksFromJsonList (tasks.map taskToJson) = some tasks := by
  induction tasks with
  | nil => rfl
  | cons t ts ih =>
    have h1 : taskFromJson (taskToJson t) = some t := rfl
    simp [tasksFromJsonList, h1, ih]

theorem parseUsizeChars_neg (cs : List Char) : parseUsizeChars ('-' :: cs) = none := by
  simp [parseUsizeChars, stripPlus]

/-! ### Claim theorems -/

/-- C1: for a task list of length `N` and an id, `complete(id)` and
`remove(id)` perform their mutation (save the state) iff `1 ≤ id ≤ N`; for
an id outside that range the list is left exactly unchanged, no save is
performed, and the invalid-id message is printed instead of a
confirmation. -/
theorem complete_remove_mutate_iff_in_range (tasks : List Task) (id : Nat) :
    (((mark_task_as_completed tasks id).saved = true ∧
      (remove_task tasks id).saved = true) ↔ (1 ≤ id ∧ id ≤ tasks.length)) ∧
    (¬ (1 ≤ id ∧ id ≤ tasks.length) →
      (mark_task_as_completed tasks id).tasks = tasks ∧
      (mark_task_as_completed tasks id).saved = false ∧
      (mark_task_as_completed tasks id).out = ["Invalid task ID."] ∧
      (remove_task tasks id).tasks = tasks ∧
      (remove_task tasks id).saved = false ∧
      (remove_task tasks id).out = ["Invalid task ID."]) := by
  unfold mark_task_as_completed remove_task
  by_cases h : 0 < id ∧ id ≤ tasks.length
  · rw [if_pos h, if_pos h]
    exact ⟨⟨fun _ => h, fun _ => ⟨rfl, rfl⟩⟩, fun hn => absurd h hn⟩
  · rw [if_neg h, if_neg h]
    exact ⟨⟨fun hs => absurd hs.1 Bool.false_ne_true, fun h1 => absurd h1 h⟩,
      fun _ => ⟨rfl, rfl, rfl, rfl, rfl, rfl⟩⟩

/-- C1 witness: on a two-task list, id 5 is out of range for both
operations. -/
theorem complete_remove_mutate_iff_in_range_witness :
    (mark_task_as_completed [⟨"a", false⟩, ⟨"b", true⟩] 5).tasks =
      [⟨"a", false⟩, ⟨"b", true⟩] ∧
    (remove_task [⟨"a", false⟩, ⟨"b", true⟩] 5).out = ["Invalid task ID."] := by
  have h := (complete_remove_mutate_iff_in_range [⟨"a", false⟩, ⟨"b", true⟩] 5).2 (by decide)
  exact ⟨h.1, h.2.2.2.2.2⟩

/-- C2 counterexample: the negative id argument `-1` for `complete` is NOT
treated as a reported out-of-range id.  It fails the `usize` parse, so the
process prints `Invalid ID.` to standard error, prints nothing to standard
output, and exits 1 — not 0 as the claim states. -/
theorem negative_id_fatal_counterexample :
    (runCmd none (Cmd.complete "-1")).exitCode ≠ 0 ∧
    (runCmd none (Cmd.complete "-1")).out = [] ∧
    (runCmd none (Cmd.complete "-1")).err = ["Invalid ID."] := by
  refine ⟨?_, rfl, rfl⟩
  decide

/-- C2 (amended): for `complete` and `remove`, an id argument that parses to
0 is treated as an out-of-range id: the list is left unchanged, the
`Invalid task ID.` message goes to standard output, and the process exits 0
(a reported, non-fatal condition).  A negative id argument, however, never
parses as `usize` (any argument starting with `-` fails the parse), and a
non-parsing id argument is fatal: `Invalid ID.` on the error stream, exit 1,
list unchanged, no save. -/
theorem zero_id_reported_negative_id_fatal (file : Option Json) (idArg : String) :
    (parseUsize idArg = some 0 →
      (runCmd file (Cmd.complete idArg)).tasks = load_tasks file ∧
      (runCmd file (Cmd.complete idArg)).saved = false ∧
      (runCmd file (Cmd.complete idArg)).out = ["Invalid task ID."] ∧
      (runCmd file (Cmd.complete idArg)).exitCode = 0 ∧
      (runCmd file (Cmd.remove idArg)).tasks = load_tasks file ∧
      (runCmd file (Cmd.remove idArg)).saved = false ∧
      (runCmd file (Cmd.remove idArg)).out = ["Invalid task ID."] ∧
      (runCmd file (Cmd.remove idArg)).exitCode = 0) ∧
    (∀ cs : List Char, parseUsizeChars ('-' :: cs) = none) ∧
    (parseUsize idArg = none →
      (runCmd file (Cmd.complete idArg)).tasks = load_tasks file ∧
      (runCmd file (Cmd.complete idArg)).saved = false ∧
      (runCmd file (Cmd.complete idArg)).out = [] ∧
      (runCmd file (Cmd.complete idArg)).err = ["Invalid ID."] ∧
      (runCmd file (Cmd.complete idArg)).exitCode = 1 ∧
      (runCmd file (Cmd.remove idArg)).tasks = load_tasks file ∧
      (runCmd file (Cmd.remove idArg)).saved = false ∧
      (runCmd file (Cmd.remove idArg)).out = [] ∧
      (runCmd file (Cmd.remove idArg)).err = ["Invalid ID."] ∧
      (runCmd file (Cmd.remove idArg)).exitCode = 1) := by
  refine ⟨?_, parseUsizeChars_neg, ?_⟩
  · intro h
    simp [runCmd, h, mark_task_as_completed, remove_task]
  · intro h
    simp [runCmd, h]

/-- C2 witness: with no storage file, id argument `0` is reported
non-fatally, and id argument `-3` fails the parse and is fatal. -/
theorem zero_id_reported_negative_id_fatal_witness :
    (runCmd none (Cmd.complete "0")).out = ["Invalid task ID."] ∧
    (runCmd none (Cmd.complete "0")).exitCode = 0 ∧
    (runCmd none (Cmd.remove "-3")).err = ["Invalid ID."] ∧
    (runCmd none (Cmd.remove "-3")).exitCode = 1 := by
  have h0 := (zero_id_reported_negative_id_fatal none "0").1 (by decide)
  have hn := (zero_id_reported_negative_id_fatal none "-3").2.2 (by decide)
  exact ⟨h0.2.2.1, h0.2.2.2.1, hn.2.2.2.2.2.2.2.2.1, hn.2.2.2.2.2.2.2.2.2⟩

/-- C3: for `complete` and `remove`, when the id argument parses as a
(non-negative machine) integer the process exits 0 even when the id is out
of range — the failure is only reported — whereas an id argument that fails
to parse puts the `Invalid ID.` diagnostic on the error stream and exits
nonzero. -/
theorem exit_code_asymmetry (file : Option Json) (idArg : String) :
    (∀ id, parseUsize idArg = some id →
      (runCmd file (Cmd.complete idArg)).exitCode = 0 ∧
      (runCmd file (Cmd.remove idArg)).exitCode = 0) ∧
    (parseUsize idArg = none →
      (runCmd file (Cmd.complete idArg)).exitCode = 1 ∧
      (runCmd file (Cmd.complete idArg)).err = ["Invalid ID."] ∧
      (runCmd file (Cmd.remove idArg)).exitCode = 1 ∧
      (runCmd file (Cmd.remove idArg)).err = ["Invalid ID."]) := by
  constructor
  · intro id h
    constructor <;> simp [runCmd, h, mark_task_as_completed, remove_task]
  · intro h
    simp [runCmd, h]

/-- C3 witness: id argument `7` parses and exits 0 on an empty store (out of
range, only reported); id argument `x` fails the parse and exits 1. -/
theorem exit_code_asymmetry_witness :
    (runCmd none (Cmd.complete "7")).exitCode = 0 ∧
    (runCmd none (Cmd.remove "x")).exitCode = 1 := by
  exact ⟨((exit_code_asymmetry none "7").1 7 (by decide)).1,
    ((exit_code_asymmetry none "x").2 (by decide)).2.2.1⟩

/-- C4: `load_tasks` returns the empty task sequence when the storage file
is absent and when its content does not deserialize as the expected
structure; it is a total function that prints nothing and never fails. -/
theorem load_falls_back_to_empty :
    load_tasks none = [] ∧
    (∀ j : Json, tasksFromJson j = none → load_tasks (some j) = []) := by
  refine ⟨rfl, ?_⟩
  intro j h
  simp [load_tasks, h]

/-- C4 witness: a file whose content is the JSON string `oops` (not an array
of task objects) loads as the empty list. -/
theorem load_falls_back_to_empty_witness :
    load_tasks (some (Json.str "oops")) = [] :=
  load_falls_back_to_empty.2 (Json.str "oops") rfl

/-- C5: for every starting task list and every description, `add_task`
appends exactly one task at the end with `completed = false` and the
description stored verbatim, leaves every pre-existing task unchanged,
persists the list, and emits a confirmation naming the description. -/
theorem add_appends_pending_task (tasks : List Task) (d : String) :
    (add_task tasks d).tasks = tasks ++ [{ description := d, completed := false }] ∧
    (add_task tasks d).tasks.length = tasks.length + 1 ∧
    (∀ j, j < tasks.length → (add_task tasks d).tasks[j]? = tasks[j]?) ∧
    (add_task tasks d).tasks[tasks.length]? =
      some { description := d, completed := false } ∧
    (add_task tasks d).saved = true ∧
    (add_task tasks d).out = ["Task \x27" ++ d ++ "\x27 added successfully!"] := by
  refine ⟨rfl, by simp [add_task], ?_, ?_, rfl, rfl⟩
  · intro j hj
    exact List.getElem?_append_left hj
  · exact List.getElem?_concat_length tasks _

/-- C5 witness: adding to a one-task list appends at the end and keeps the
existing task. -/
theorem add_appends_pending_task_witness :
    (add_task [⟨"a", true⟩] "b").tasks[0]? = some ⟨"a", true⟩ ∧
    (add_task [⟨"a", true⟩] "b").tasks[1]? = some ⟨"b", false⟩ := by
  have h := add_appends_pending_task [⟨"a", true⟩] "b"
  exact ⟨(h.2.2.1 0 (by decide)).trans (by decide), h.2.2.2.1⟩

/-- C6: for `1 ≤ id ≤ N`, `remove_task` shortens the list by exactly one,
keeps every task before position `id` in place, shifts every task after
position `id` one position down, saves, and emits a confirmation naming the
removed task's description. -/
theorem remove_deletes_and_shifts (tasks : List Task) (id : Nat)
    (h1 : 1 ≤ id) (h2 : id ≤ tasks.length) :
    (remove_task tasks id).tasks.length + 1 = tasks.length ∧
    (∀ j, j < id - 1 → (remove_task tasks id).tasks[j]? = tasks[j]?) ∧
    (∀ j, id - 1 ≤ j → (remove_task tasks id).tasks[j]? = tasks[j + 1]?) ∧
    (remove_task tasks id).saved = true ∧
    (∀ t, tasks[id - 1]? = some t →
      (remove_task tasks id).out =
        ["Task \x27" ++ t.description ++ "\x27 removed successfully!"]) := by
  have hc : 0 < id ∧ id ≤ tasks.length := ⟨h1, h2⟩
  unfold remove_task
  rw [if_pos hc]
  refine ⟨List.length_eraseIdx_add_one (by omega), ?_, ?_, rfl, ?_⟩
  · intro j hj
    exact List.getElem?_eraseIdx_of_lt tasks (id - 1) j hj
  · intro j hj
    exact List.getElem?_eraseIdx_of_ge tasks (id - 1) j hj
  · intro t ht
    simp [ht]

/-- C6 witness: removing id 1 from a two-task list leaves the second task
at position 1 and names the removed description. -/
theorem remove_deletes_and_shifts_witness :
    (remove_task [⟨"a", false⟩, ⟨"b", true⟩] 1).tasks[0]? = some ⟨"b", true⟩ ∧
    (remove_task [⟨"a", false⟩, ⟨"b", true⟩] 1).out =
      ["Task \x27a\x27 removed successfully!"] := by
  have h := remove_deletes_and_shifts [⟨"a", false⟩, ⟨"b", true⟩] 1
    (by decide) (by decide)
  exact ⟨(h.2.2.1 0 (by decide)).trans (by decide),
    h.2.2.2.2 ⟨"a", false⟩ (by decide)⟩

/-- C7: `list_tasks` selects exactly the pending tasks for filter
`pending`, exactly the completed ones for filter `completed`, and all tasks
for any other filter value (including an absent one); the selection is
renumbered contiguously from 1 in original relative order, each line shaped
`<position>. <description> (<Completed|Pending>)`, and `No tasks found.` is
printed when the selection is empty. -/
theorem list_renders_filtered_view (tasks : List Task) (f : Option String) :
    list_tasks tasks f =
      (let sel := tasks.filter (fun t =>
        if f = some "pending" then !t.completed
        else if f = some "completed" then t.completed
        else true)
      if sel.isEmpty then ["No tasks found."]
      else sel.enum.map (fun p =>
        toString (p.1 + 1) ++ ". " ++ p.2.description ++ " (" ++
          (if p.2.completed then "Completed" else "Pending") ++ ")")) := by
  have hpred : filterPred (f.getD "") = (fun t =>
      if f = some "pending" then !t.completed
      else if f = some "completed" then t.completed
      else true) := by
    funext t
    cases f with
    | none => simp [filterPred]
    | some s =>
      by_cases h1 : s = "pending"
      · simp [filterPred, h1]
      · by_cases h2 : s = "completed"
        · simp [filterPred, h1, h2]
        · simp [filterPred, h1, h2]
  simp only [list_tasks, hpred, renderLine, statusStr]

/-- C8: `list` leaves the task list completely unchanged and never writes
the storage file: the in-memory list after a `list` invocation is exactly
the loaded one and no save is performed. -/
theorem list_never_mutates_or_saves (file : Option Json) (f : Option String) :
    (runCmd file (Cmd.list f)).tasks = load_tasks file ∧
    (runCmd file (Cmd.list f)).saved = false :=
  ⟨rfl, rfl⟩

/-- C9: saving any task sequence and loading the resulting file content
yields an identical sequence — every description and completed flag is
preserved exactly, in order. -/
theorem save_load_round_trip (tasks : List Task) :
    load_tasks (some (save_tasks tasks)) = tasks := by
  simp [load_tasks, save_tasks, tasksFromJson, tasksFromJsonList_map_toJson]

/-- C10: for `1 ≤ id ≤ N`, `mark_task_as_completed` changes at most the
completed flag of the task at position `id`: the length, every other task,
and every description are unchanged; completing an already-completed task
leaves the list identical and still reports success. -/
theorem complete_frame (tasks : List Task) (id : Nat)
    (h1 : 1 ≤ id) (h2 : id ≤ tasks.length) :
    (mark_task_as_completed tasks id).tasks.length = tasks.length ∧
    (∀ j, j ≠ id - 1 → (mark_task_as_completed tasks id).tasks[j]? = tasks[j]?) ∧
    (∀ j : Nat, Option.map Task.description ((mark_task_as_completed tasks id).tasks[j]?) =
      Option.map Task.description tasks[j]?) ∧
    (mark_task_as_completed tasks id).tasks[id - 1]? =
      (tasks[id - 1]?).map (fun t => { description := t.description, completed := true }) ∧
    (∀ t, tasks[id - 1]? = some t → t.completed = true →
      (mark_task_as_completed tasks id).tasks = tasks) ∧
    (mark_task_as_completed tasks id).saved = true ∧
    (mark_task_as_completed tasks id).out =
      ["Task " ++ toString id ++ " marked as completed!"] := by
  have hc : 0 < id ∧ id ≤ tasks.length := ⟨h1, h2⟩
  unfold mark_task_as_completed
  rw [if_pos hc]
  refine ⟨setTaskCompleted_length tasks (id - 1), ?_, ?_, ?_, ?_, rfl, rfl⟩
  · intro j hj
    exact setTaskCompleted_getElem?_ne tasks (id - 1) j hj
  · intro j
    by_cases hj : j = id - 1
    · subst hj
      rw [setTaskCompleted_getElem?_self]
      cases tasks[id - 1]? <;> rfl
    · rw [setTaskCompleted_getElem?_ne tasks (id - 1) j hj]
  · exact setTaskCompleted_getElem?_self tasks (id - 1)
  · intro t ht htc
    exact setTaskCompleted_of_completed tasks (id - 1) t ht htc

/-- C10 witness: completing task 2 of a two-task list whose second task is
already completed leaves the list identical and reports success. -/
theorem complete_frame_witness :
    (mark_task_as_completed [⟨"a", false⟩, ⟨"b", true⟩] 2).tasks =
      [⟨"a", false⟩, ⟨"b", true⟩] ∧
    (mark_task_as_completed [⟨"a", false⟩, ⟨"b", true⟩] 2).out =
      ["Task 2 marked as completed!"] := by
  have h := complete_frame [⟨"a", false⟩, ⟨"b", true⟩] 2 (by decide) (by decide)
  exact ⟨h.2.2.2.2.1 ⟨"b", true⟩ (by decide) rfl, h.2.2.2.2.2.2⟩

end TaskManager
